import Mathlib

/-!
Shallow embedding of `src/proyecto/app.py` (Movilidad CR dashboard).

JSON values are modelled by an inductive type, with rational numbers standing
for Python numbers.  The single HTTP request performed by the script is
modelled by passing the observable response (status code plus parsed body,
`none` when the body is not valid JSON) to the fetcher as an argument.
Python exceptions that the script catches are modelled by `Option`;
exceptions that would escape the script are modelled by `Except.error`.
The spreadsheet is modelled as a list of rows with the columns the script
uses, and a pandas `DataFrame` of route points as a list of points.
-/

namespace MovilidadCR

/-- A JSON value, as produced by `requests.Response.json()`. -/
inductive Json where
  | null : Json
  | bool (b : Bool) : Json
  | num (q : ℚ) : Json
  | str (s : String) : Json
  | arr (xs : List Json) : Json
  | obj (fields : List (String × Json)) : Json

/-- `d[k]` on a JSON value: key lookup when `d` is an object (first binding
wins, as in a parsed JSON object), otherwise `none`, modelling a raised
`KeyError`/`TypeError`. -/
def Json.getField : Json → String → Option Json
  | .obj fs, k => (fs.find? (fun p => p.1 == k)).map (fun p => p.2)
  | _, _ => none

/-- `a[i]` on a JSON value: positional indexing when `a` is an array,
otherwise `none`, modelling a raised `IndexError`/`TypeError`/`KeyError`. -/
def Json.getIdx : Json → Nat → Option Json
  | .arr xs, i => xs.get? i
  | _, _ => none

/-- A JSON value used as a number; `none` models a `TypeError` on arithmetic. -/
def Json.getNum : Json → Option ℚ
  | .num q => some q
  | _ => none

/-- A JSON value used as a list to iterate over; `none` models a `TypeError`. -/
def Json.getArr : Json → Option (List Json)
  | .arr xs => some xs
  | _ => none

/-- The observable part of the HTTP response returned by `requests.get`:
status code plus parsed JSON body (`none` when `r.json()` raises, which
happens inside the script's `try`). -/
structure Response where
  status : Nat
  body : Option Json

/-- One row of the route DataFrame built by `obtener_ruta_osrm`:
`{"lat": c[1], "lon": c[0]}`.  The script stores the JSON values unchecked. -/
structure PointJ where
  lat : Json
  lon : Json

/-- Return value of `obtener_ruta_osrm`: the route DataFrame as a list of
points, and the duration in minutes (`None` on failure). -/
structure FetchResult where
  ruta : List PointJ
  duracion : Option ℚ

/-- The body of the `try` block of `obtener_ruta_osrm` (lines 59-69):
extract `data["routes"][0]["geometry"]["coordinates"]` and
`data["routes"][0]["duration"] / 60`.  `none` models a caught exception. -/
def extractTry (data : Json) : Option (Json × ℚ) := do
  let routes ← data.getField "routes"
  let r0 ← routes.getIdx 0
  let geom ← r0.getField "geometry"
  let coords ← geom.getField "coordinates"
  let durJ ← r0.getField "duration"
  let dur ← durJ.getNum
  return (coords, dur / 60)

/-- One step of the comprehension `[{"lat": c[1], "lon": c[0]} for c in coords]`
(line 72); `none` models an exception raised outside any `try` (uncaught). -/
def toPoint (c : Json) : Option PointJ := do
  let la ← c.getIdx 1
  let lo ← c.getIdx 0
  return { lat := la, lon := lo }

/-- The whole comprehension `[{"lat": c[1], "lon": c[0]} for c in coords]`:
builds the list of points, `none` as soon as one step raises. -/
def toPoints : List Json → Option (List PointJ)
  | [] => some []
  | c :: cs => do
    let p ← toPoint c
    let ps ← toPoints cs
    return p :: ps

/-- `obtener_ruta_osrm` (lines 38-74), with the HTTP response passed as an
argument: the lat/lon parameters of the Python function only enter the
request URL, which determines the response and is otherwise unused.
`Except.error` models an uncaught Python exception (only possible in the
point-comprehension, which sits outside the `try` block). -/
def obtener_ruta_osrm (r : Response) : Except String FetchResult :=
  if r.status ≠ 200 then .ok ⟨[], none⟩
  else
    match r.body with
    | none => .ok ⟨[], none⟩
    | some data =>
      match extractTry data with
      | none => .ok ⟨[], none⟩
      | some (coordsJ, dur) =>
        match coordsJ.getArr with
        | none => .error "TypeError: object is not iterable"
        | some cs =>
          match toPoints cs with
          | none => .error "IndexError: list index out of range"
          | some pts => .ok ⟨pts, some dur⟩

/-- The first route object of an OSRM response of the expected shape:
`{"geometry": {"coordinates": [[lon, lat], ...]}, "duration": d}`. -/
def osrmRoute (coords : List (ℚ × ℚ)) (dur : ℚ) : Json :=
  .obj [("geometry", .obj [("coordinates",
           .arr (coords.map (fun c => .arr [.num c.1, .num c.2])))]),
        ("duration", .num dur)]

/-- An OSRM response body of the expected shape, with the given first route
followed by any further routes `rest`. -/
def mkOSRMBody (coords : List (ℚ × ℚ)) (dur : ℚ) (rest : List Json) : Json :=
  .obj [("routes", .arr (osrmRoute coords dur :: rest))]

/-- One row of the spreadsheet `datos/rutas_cr.xlsx` (the columns the script
uses). -/
structure Row where
  inicio : String
  fin : String
  ruta : String
  lat_inicio : ℚ
  lon_inicio : ℚ
  lat_fin : ℚ
  lon_fin : ℚ
  distancia_km : ℚ
  pasajeros_prom : ℚ
  frecuencia_hora : ℚ
  deriving DecidableEq

/-- A row after line 33 added the derived `eficiencia` column. -/
structure RowE extends Row where
  eficiencia : ℚ
  deriving DecidableEq

/-- Line 33: `df["eficiencia"] = df["pasajeros_prom"] / df["distancia_km"]`. -/
def addEficiencia (df : List Row) : List RowE :=
  df.map (fun r => { toRow := r, eficiencia := r.pasajeros_prom / r.distancia_km })

/-- Line 102: `rutas_od = df[(df["inicio"] == origen) & (df["fin"] == destino)]`. -/
def rutas_od (df : List RowE) (origen destino : String) : List RowE :=
  df.filter (fun r => r.inicio == origen && r.fin == destino)

/-- Lines 110-117: route-name disambiguation.  With more than one matching
row, `fila` is the first row whose `ruta` equals the chosen name
(`rutas_od[rutas_od["ruta"] == ruta_seleccionada].iloc[0]`); otherwise it is
`rutas_od.iloc[0]`.  `none` models an uncaught `IndexError` from `iloc[0]`
on an empty frame. -/
def selectFila (rutas : List RowE) (sel : String) : Option RowE :=
  if 1 < rutas.length then (rutas.filter (fun r => r.ruta == sel)).head?
  else rutas.head?

/-- `idxmin`-style selection on a nonempty collection `x :: xs`: the first
element attaining the minimum of `f` (pandas `idxmin` returns the first
index of the minimum, and `.loc` then fetches that row). -/
def argminNE {α : Type} (f : α → ℚ) (x : α) (xs : List α) : α :=
  xs.foldl (fun b y => if f y < f b then y else b) x

/-- `idxmax`-style selection on `x :: xs`: the first element attaining the
maximum of `f`. -/
def argmaxNE {α : Type} (f : α → ℚ) (x : α) (xs : List α) : α :=
  xs.foldl (fun b y => if f b < f y then y else b) x

/-- Line 141: `rutas_od.loc[rutas_od["distancia_km"].idxmin()]`. -/
def ruta_corta : List RowE → Option RowE
  | [] => none
  | r :: rs => some (argminNE (fun s => s.distancia_km) r rs)

/-- Line 144: `rutas_od.loc[rutas_od["frecuencia_hora"].idxmax()]`. -/
def ruta_freq : List RowE → Option RowE
  | [] => none
  | r :: rs => some (argmaxNE (fun s => s.frecuencia_hora) r rs)

/-- Line 147: `rutas_od.loc[rutas_od["eficiencia"].idxmax()]`. -/
def ruta_eff : List RowE → Option RowE
  | [] => none
  | r :: rs => some (argmaxNE (fun s => s.eficiencia) r rs)

/-- Linear interpolation at fractional position `h` into the sorted value
list `s`: with `i = ⌊h⌋`, the value `s[i] + (h - i) * (s[i+1] - s[i])`,
reading `s[i+1]` as `s[i]` past the end. -/
def qinterp (s : List ℚ) (h : ℚ) : ℚ :=
  s.getD (Int.toNat ⌊h⌋) 0
    + (h - ((Int.toNat ⌊h⌋ : ℕ) : ℚ))
      * (s.getD (Int.toNat ⌊h⌋ + 1) (s.getD (Int.toNat ⌊h⌋) 0)
          - s.getD (Int.toNat ⌊h⌋) 0)

/-- `pandas.Series.quantile(q)` with the default linear interpolation: the
value at fractional position `q * (n - 1)` into the sorted values. -/
def quantile (xs : List ℚ) (q : ℚ) : ℚ :=
  if (List.insertionSort (fun a b => a ≤ b) xs).length = 0 then 0
  else qinterp (List.insertionSort (fun a b => a ≤ b) xs)
    (q * (((List.insertionSort (fun a b => a ≤ b) xs).length : ℚ) - 1))

/-- The three colors used by `eficiencia_color`. -/
inductive Color where
  | green
  | orange
  | red
  deriving DecidableEq

/-- Lines 207-213: `eficiencia_color(value)`, bucketing `value` against the
0.33 and 0.66 quantiles of the full table's `eficiencia` column. -/
def eficiencia_color (df : List RowE) (value : ℚ) : Color :=
  if quantile (df.map (fun r => r.eficiencia)) (66 / 100) < value then .green
  else if quantile (df.map (fun r => r.eficiencia)) (33 / 100) < value then .orange
  else .red

/-- Line 163: `df.groupby("ruta")["pasajeros_prom"].sum()`, as the list of
(route name, total) pairs in sorted key order (pandas sorts group keys). -/
def demandaPorRuta (df : List RowE) : List (String × ℚ) :=
  (List.insertionSort (fun a b => a ≤ b) (df.map (fun r => r.ruta)).dedup).map
    (fun n => (n, ((df.filter (fun r => r.ruta == n)).map (fun r => r.pasajeros_prom)).sum))

/-- Lines 216-222: one polyline per row of the full table, colored by
`eficiencia_color` and labelled with the route name. -/
def minimapaLineas (df : List RowE) : List (String × Color) :=
  df.map (fun r => (r.ruta, eficiencia_color df r.eficiencia))

/-- What iteration `i` of the animation loop draws: the icon marker at
`punto = ruta_real.iloc[i:i+1]`, the traveled path
`camino = ruta_real.iloc[:i+1]`, and the camera center at `punto`. -/
structure Frame where
  marker : PointJ
  path : List PointJ
  center : PointJ

/-- Lines 228-264: the loop `for i in range(len(ruta_real))`, as the list of
frames it draws into the placeholder, in order. -/
def animationFrames (ruta : List PointJ) : List Frame :=
  List.ofFn (fun i : Fin ruta.length => ⟨ruta.get i, ruta.take (i.1 + 1), ruta.get i⟩)

/-- The three extremal metrics plus the OSRM duration in minutes
(lines 141-151). -/
structure Metrics where
  corta : RowE
  freq : RowE
  eff : RowE
  duracion_min : ℚ

/-- Outcome of one top-to-bottom run of the script below the selectors:
either a halt via `st.error` + `st.stop` carrying only the shown message, or
the full set of rendered outputs (metrics, filtered table, demand chart,
minimap lines, animation frames). -/
inductive PipeResult where
  | halted (msg : String)
  | rendered (m : Metrics) (tabla : List RowE) (chart : List (String × ℚ))
      (minimapa : List (String × Color)) (frames : List Frame)

/-- Lines 102-264 of the script, from the selection filter to the animation
loop.  `df` is the table with the `eficiencia` column, `origen`, `destino`
and `sel` the selector choices, and `resp` the OSRM HTTP response.  The
selected row `fila` only determines the request URL, so it does not appear
in the result.  `Except.error` models an uncaught exception. -/
def pipeline (df : List RowE) (origen destino sel : String) (resp : Response) :
    Except String PipeResult :=
  match rutas_od df origen destino with
  | [] => .ok (.halted "No existen rutas entre este origen y destino.")
  | r :: rs =>
    match selectFila (r :: rs) sel with
    | none => .error "IndexError: single positional indexer is out-of-bounds"
    | some _fila =>
      match obtener_ruta_osrm resp with
      | .error e => .error e
      | .ok res =>
        match res.ruta with
        | [] => .ok (.halted "Error al obtener ruta desde OSRM.")
        | p :: ps =>
          match res.duracion with
          | none => .error "TypeError: unsupported format string passed to NoneType"
          | some d =>
            .ok (.rendered
              ⟨argminNE (fun s => s.distancia_km) r rs,
               argmaxNE (fun s => s.frecuencia_hora) r rs,
               argmaxNE (fun s => s.eficiencia) r rs, d⟩
              (r :: rs) (demandaPorRuta df) (minimapaLineas df)
              (animationFrames (p :: ps)))

/-! ### Helper lemmas -/

/-- The point comprehension on a well-formed coordinate array swaps each
`[lon, lat]` pair into a `(lat, lon)` point. -/
lemma toPoints_map (coords : List (ℚ × ℚ)) :
    toPoints (coords.map (fun c => Json.arr [.num c.1, .num c.2]))
      = some (coords.map (fun c => (⟨Json.num c.2, Json.num c.1⟩ : PointJ))) := by
  induction coords with
  | nil => rfl
  | cons c cs ih => simp [toPoints, toPoint, Json.getIdx, ih]

/-- The fetcher on a status-200 response of the expected shape. -/
lemma fetch_mkOSRM (coords : List (ℚ × ℚ)) (dur : ℚ) (rest : List Json) :
    obtener_ruta_osrm ⟨200, some (mkOSRMBody coords dur rest)⟩
      = .ok ⟨coords.map (fun c => ⟨Json.num c.2, Json.num c.1⟩), some (dur / 60)⟩ := by
  have h1 : extractTry (mkOSRMBody coords dur rest)
      = some (.arr (coords.map (fun c => .arr [.num c.1, .num c.2])), dur / 60) := rfl
  simp [obtener_ruta_osrm, h1, Json.getArr, toPoints_map]

/-- Sample data used by the concrete witnesses below. -/
def sampleRow : Row :=
  { inicio := "A", fin := "B", ruta := "R1", lat_inicio := 1, lon_inicio := 2,
    lat_fin := 3, lon_fin := 4, distancia_km := 5, pasajeros_prom := 10,
    frecuencia_hora := 4 }

/-- A second sample row with the same endpoints but another route name. -/
def sampleRow2 : Row :=
  { inicio := "A", fin := "B", ruta := "R2", lat_inicio := 1, lon_inicio := 2,
    lat_fin := 3, lon_fin := 4, distancia_km := 7, pasajeros_prom := 14,
    frecuencia_hora := 6 }

/-! ### Claims -/

/-- C1: for every successful (status-200) fetch response of the expected
shape, `obtener_ruta_osrm` returns the coordinate list of the first returned
route with each `[lon, lat]` point reordered to `(lat, lon)`, and the
route's duration divided by 60; in particular, for the response
`{"routes": [{"geometry": {"coordinates": [[10, 20], [11, 21]]}, "duration": 600}]}`
it returns the two-point path `[(20, 10), (21, 11)]` and duration `10`. -/
theorem C1_fetch_success (coords : List (ℚ × ℚ)) (dur : ℚ) (rest : List Json) :
    (obtener_ruta_osrm ⟨200, some (mkOSRMBody coords dur rest)⟩
       = .ok ⟨coords.map (fun c => ⟨Json.num c.2, Json.num c.1⟩), some (dur / 60)⟩) ∧
    (obtener_ruta_osrm ⟨200, some (mkOSRMBody [(10, 20), (11, 21)] 600 [])⟩
       = .ok ⟨[⟨Json.num 20, Json.num 10⟩, ⟨Json.num 21, Json.num 11⟩], some 10⟩) := by
  refine ⟨fetch_mkOSRM coords dur rest, ?_⟩
  rw [fetch_mkOSRM]
  norm_num

/-- C2: whenever the HTTP status is not 200, or the body is unparsable
(`r.json()` raises), or the `try`-block extraction of the expected JSON
fields fails (e.g. a missing `"routes"` key), the fetcher returns the empty
result `(pd.DataFrame(), None)` and raises no uncaught error. -/
theorem C2_fetch_failure (r : Response)
    (h : r.status ≠ 200 ∨ r.body = none ∨ ∃ d, r.body = some d ∧ extractTry d = none) :
    obtener_ruta_osrm r = .ok ⟨[], none⟩ := by
  rcases h with h | h | ⟨d, hd, he⟩
  · simp [obtener_ruta_osrm, h]
  · by_cases hs : r.status = 200 <;> simp [obtener_ruta_osrm, hs, h]
  · by_cases hs : r.status = 200 <;> simp [obtener_ruta_osrm, hs, hd, he]

/-- Witness for C2 at the concrete response with status 404 and no body. -/
theorem C2_fetch_failure_witness :
    ((Response.mk 404 none).status ≠ 200 ∨ (Response.mk 404 none).body = none ∨
      ∃ d, (Response.mk 404 none).body = some d ∧ extractTry d = none) ∧
    obtener_ruta_osrm ⟨404, none⟩ = .ok ⟨[], none⟩ :=
  ⟨Or.inl (by decide), C2_fetch_failure ⟨404, none⟩ (Or.inl (by decide))⟩

/-- C4: the selection filter returns exactly the rows of the table whose
origin label equals the chosen origin and whose destination label equals
the chosen destination, and no other rows. -/
theorem C4_rutas_od_filter (df : List RowE) (origen destino : String) (r : RowE) :
    r ∈ rutas_od df origen destino ↔ r ∈ df ∧ r.inicio = origen ∧ r.fin = destino := by
  simp [rutas_od, List.mem_filter, and_assoc]

/-- C6: every row of the table produced by the derived-column step with
nonzero distance has `eficiencia = pasajeros_prom / distancia_km`. -/
theorem C6_eficiencia_column (df : List Row) (r : RowE)
    (hr : r ∈ addEficiencia df) (hd : r.distancia_km ≠ 0) :
    r.eficiencia = r.pasajeros_prom / r.distancia_km := by
  simp only [addEficiencia, List.mem_map] at hr
  obtain ⟨a, -, rfl⟩ := hr
  rfl

/-- Witness for C6 at a concrete one-row table. -/
theorem C6_eficiencia_column_witness :
    ((⟨sampleRow, 10 / 5⟩ : RowE) ∈ addEficiencia [sampleRow] ∧
      (⟨sampleRow, 10 / 5⟩ : RowE).distancia_km ≠ 0) ∧
    (⟨sampleRow, 10 / 5⟩ : RowE).eficiencia
      = (⟨sampleRow, 10 / 5⟩ : RowE).pasajeros_prom / (⟨sampleRow, 10 / 5⟩ : RowE).distancia_km :=
  ⟨⟨List.mem_singleton.mpr rfl, by norm_num [sampleRow]⟩,
    C6_eficiencia_column [sampleRow] ⟨sampleRow, 10 / 5⟩
      (List.mem_singleton.mpr rfl) (by norm_num [sampleRow])⟩

/-- Sample points used by concrete witnesses. -/
def pA : PointJ := ⟨Json.num 20, Json.num 10⟩

/-- A second sample point. -/
def pB : PointJ := ⟨Json.num 21, Json.num 11⟩

/-- Sample table rows with the `eficiencia` column, used by witnesses. -/
def rowE1 : RowE := ⟨sampleRow, 2⟩

/-- A second sample table row with route name R2. -/
def rowE2 : RowE := ⟨sampleRow2, 2⟩

/-- C3: for a non-empty fetched path of length `n` the animation loop runs
exactly `n` frames, frame `i` places the marker (and the camera) at point
`i` and draws exactly the points `0..i` inclusive, and the sequence of
markers over the frames is exactly the path: every point is visited exactly
once, in order. -/
theorem C3_animation_frames (ruta : List PointJ) (hne : ruta ≠ []) :
    (animationFrames ruta).length = ruta.length ∧
    (∀ i : Fin ruta.length,
      (animationFrames ruta).get? i.1
        = some ⟨ruta.get i, ruta.take (i.1 + 1), ruta.get i⟩) ∧
    (animationFrames ruta).map (fun fr => fr.marker) = ruta := by
  refine ⟨by simp [animationFrames], fun i => ?_, ?_⟩
  · rw [animationFrames, List.get?_ofFn]
    simp [List.ofFnNthVal, i.isLt]
  · rw [animationFrames, List.map_ofFn]
    exact List.ofFn_get ruta

/-- Witness for C3 on a concrete two-point path. -/
theorem C3_animation_frames_witness :
    ([pA, pB] : List PointJ) ≠ [] ∧
    (animationFrames [pA, pB]).length = 2 ∧
    (animationFrames [pA, pB]).get? 0 = some ⟨pA, [pA], pA⟩ ∧
    (animationFrames [pA, pB]).map (fun fr => fr.marker) = [pA, pB] :=
  ⟨by simp,
   (C3_animation_frames [pA, pB] (by simp)).1,
   by simpa using (C3_animation_frames [pA, pB] (by simp)).2.1 ⟨0, by simp⟩,
   (C3_animation_frames [pA, pB] (by simp)).2.2⟩

/-- C7: when the selection filter comes back empty, the pipeline halts with
the user-visible error message; the `halted` result carries no metrics,
table, chart, minimap or animation output. -/
theorem C7_empty_selection_halts (df : List RowE) (origen destino sel : String)
    (resp : Response) (h : rutas_od df origen destino = []) :
    pipeline df origen destino sel resp
      = .ok (.halted "No existen rutas entre este origen y destino.") := by
  unfold pipeline
  rw [h]

/-- Witness for C7 on the empty table. -/
theorem C7_empty_selection_halts_witness :
    rutas_od [] "A" "B" = [] ∧
    pipeline [] "A" "B" "R1" ⟨404, none⟩
      = .ok (.halted "No existen rutas entre este origen y destino.") :=
  ⟨rfl, C7_empty_selection_halts [] "A" "B" "R1" ⟨404, none⟩ rfl⟩

/-- C8: with exactly one matching row, that row is used directly and the
route-name choice is never consulted; with more than one matching row the
route-name choice resolves the selection to a single matching record. -/
theorem C8_route_disambiguation (rutas : List RowE) :
    (∀ r : RowE, rutas = [r] → ∀ s : String, selectFila rutas s = some r) ∧
    (∀ sel : String, 1 < rutas.length → sel ∈ rutas.map (fun r => r.ruta) →
      ∃ r, selectFila rutas sel = some r ∧ r ∈ rutas ∧ r.ruta = sel) := by
  constructor
  · rintro r rfl s
    simp [selectFila]
  · intro sel hlen hmem
    simp only [selectFila, if_pos hlen]
    simp only [List.mem_map] at hmem
    obtain ⟨x, hx, hxr⟩ := hmem
    have hxf : x ∈ rutas.filter (fun r => r.ruta == sel) :=
      List.mem_filter.mpr ⟨hx, by simp [hxr]⟩
    rcases hfil : rutas.filter (fun r => r.ruta == sel) with _ | ⟨y, ys⟩
    · rw [hfil] at hxf
      exact absurd hxf (List.not_mem_nil x)
    · have hy : y ∈ rutas.filter (fun r => r.ruta == sel) := by
        rw [hfil]; exact List.mem_cons_self y ys
      have hy' := List.mem_filter.mp hy
      exact ⟨y, by simp [hfil], hy'.1, by simpa using hy'.2⟩

/-- Witness for C8: two matching rows, disambiguated by route name R2. -/
theorem C8_route_disambiguation_witness :
    (1 < ([rowE1, rowE2] : List RowE).length ∧
      "R2" ∈ ([rowE1, rowE2] : List RowE).map (fun r => r.ruta)) ∧
    ∃ r, selectFila [rowE1, rowE2] "R2" = some r ∧ r ∈ [rowE1, rowE2] ∧ r.ruta = "R2" :=
  ⟨⟨by simp, by simp [rowE1, rowE2, sampleRow, sampleRow2]⟩,
    (C8_route_disambiguation [rowE1, rowE2]).2 "R2" (by simp)
      (by simp [rowE1, rowE2, sampleRow, sampleRow2])⟩

/-- The foldl used by `argminNE` stays inside the collection and attains the
minimum of `f`, returning the first minimizer. -/
lemma argminNE_spec {α : Type} (f : α → ℚ) :
    ∀ (xs : List α) (x : α),
      argminNE f x xs ∈ x :: xs ∧ ∀ y ∈ x :: xs, f (argminNE f x xs) ≤ f y := by
  intro xs
  induction xs with
  | nil =>
    intro x
    refine ⟨List.mem_singleton.mpr rfl, ?_⟩
    intro y hy
    rcases List.mem_singleton.mp hy with rfl
    exact le_refl _
  | cons z zs ih =>
    intro x
    have hstep : argminNE f x (z :: zs) = argminNE f (if f z < f x then z else x) zs := rfl
    obtain ⟨hmem, hle⟩ := ih (if f z < f x then z else x)
    constructor
    · rw [hstep]
      rcases List.mem_cons.mp hmem with h | h
      · rw [h]
        split
        · exact List.mem_cons_of_mem _ (List.mem_cons_self _ _)
        · exact List.mem_cons_self _ _
      · exact List.mem_cons_of_mem _ (List.mem_cons_of_mem _ h)
    · intro y hy
      rw [hstep]
      have hhead := hle _ (List.mem_cons_self _ _)
      rcases List.mem_cons.mp hy with rfl | hy'
      · refine le_trans hhead ?_
        split
        · exact le_of_lt (by assumption)
        · exact le_refl _
      · rcases List.mem_cons.mp hy' with rfl | hy''
        · refine le_trans hhead ?_
          split
          · exact le_refl _
          · exact le_of_not_lt (by assumption)
        · exact hle y (List.mem_cons_of_mem _ hy'')

/-- The foldl used by `argmaxNE` stays inside the collection and attains the
maximum of `f`, returning the first maximizer. -/
lemma argmaxNE_spec {α : Type} (f : α → ℚ) :
    ∀ (xs : List α) (x : α),
      argmaxNE f x xs ∈ x :: xs ∧ ∀ y ∈ x :: xs, f y ≤ f (argmaxNE f x xs) := by
  intro xs
  induction xs with
  | nil =>
    intro x
    refine ⟨List.mem_singleton.mpr rfl, ?_⟩
    intro y hy
    rcases List.mem_singleton.mp hy with rfl
    exact le_refl _
  | cons z zs ih =>
    intro x
    have hstep : argmaxNE f x (z :: zs) = argmaxNE f (if f x < f z then z else x) zs := rfl
    obtain ⟨hmem, hle⟩ := ih (if f x < f z then z else x)
    constructor
    · rw [hstep]
      rcases List.mem_cons.mp hmem with h | h
      · rw [h]
        split
        · exact List.mem_cons_of_mem _ (List.mem_cons_self _ _)
        · exact List.mem_cons_self _ _
      · exact List.mem_cons_of_mem _ (List.mem_cons_of_mem _ h)
    · intro y hy
      rw [hstep]
      have hhead := hle _ (List.mem_cons_self _ _)
      rcases List.mem_cons.mp hy with rfl | hy'
      · refine le_trans ?_ hhead
        split
        · exact le_of_lt (by assumption)
        · exact le_refl _
      · rcases List.mem_cons.mp hy' with rfl | hy''
        · refine le_trans ?_ hhead
          split
          · exact le_refl _
          · exact le_of_not_lt (by assumption)
        · exact hle y (List.mem_cons_of_mem _ hy'')

/-- C9: on every non-empty filtered subset, the displayed extremal records
are a member attaining the minimum distance, a member attaining the maximum
frequency, and a member attaining the maximum efficiency (each carried as a
full record, so in particular with its route name); ties are broken
consistently by taking the first attaining row, as pandas `idxmin`/`idxmax`
do. -/
theorem C9_extremal_metrics (rutas : List RowE) (hne : rutas ≠ []) :
    (∃ a, ruta_corta rutas = some a ∧ a ∈ rutas ∧
       ∀ s ∈ rutas, a.distancia_km ≤ s.distancia_km) ∧
    (∃ b, ruta_freq rutas = some b ∧ b ∈ rutas ∧
       ∀ s ∈ rutas, s.frecuencia_hora ≤ b.frecuencia_hora) ∧
    (∃ c, ruta_eff rutas = some c ∧ c ∈ rutas ∧
       ∀ s ∈ rutas, s.eficiencia ≤ c.eficiencia) := by
  match rutas, hne with
  | r :: rs, _ =>
    obtain ⟨hm1, hl1⟩ := argminNE_spec (fun s => s.distancia_km) rs r
    obtain ⟨hm2, hl2⟩ := argmaxNE_spec (fun s => s.frecuencia_hora) rs r
    obtain ⟨hm3, hl3⟩ := argmaxNE_spec (fun s => s.eficiencia) rs r
    exact ⟨⟨_, rfl, hm1, hl1⟩, ⟨_, rfl, hm2, hl2⟩, ⟨_, rfl, hm3, hl3⟩⟩

/-- Witness for C9 on a concrete two-row subset. -/
theorem C9_extremal_metrics_witness :
    ([rowE1, rowE2] : List RowE) ≠ [] ∧
    (∃ a, ruta_corta [rowE1, rowE2] = some a ∧ a ∈ [rowE1, rowE2] ∧
       ∀ s ∈ ([rowE1, rowE2] : List RowE), a.distancia_km ≤ s.distancia_km) :=
  ⟨by simp, (C9_extremal_metrics [rowE1, rowE2] (by simp)).1⟩

/-- C10: if the fetch succeeds (status 200, well-formed body) but the first
route's coordinate list is empty, the fetcher returns an empty path together
with a duration, and the pipeline treats this exactly like a fetch failure:
it halts with the fetch-error message before metrics, table, chart, minimap
and animation rendering. -/
theorem C10_empty_coords_halts (df : List RowE) (origen destino sel : String) (dur : ℚ)
    (hne : rutas_od df origen destino ≠ [])
    (hsel : (selectFila (rutas_od df origen destino) sel).isSome = true) :
    obtener_ruta_osrm ⟨200, some (mkOSRMBody [] dur [])⟩ = .ok ⟨[], some (dur / 60)⟩ ∧
    pipeline df origen destino sel ⟨200, some (mkOSRMBody [] dur [])⟩
      = .ok (.halted "Error al obtener ruta desde OSRM.") := by
  have hfetch : obtener_ruta_osrm ⟨200, some (mkOSRMBody [] dur [])⟩
      = .ok ⟨[], some (dur / 60)⟩ := by simpa using fetch_mkOSRM [] dur []
  refine ⟨hfetch, ?_⟩
  rcases hrod : rutas_od df origen destino with _ | ⟨r, rs⟩
  · exact absurd hrod hne
  · rw [hrod] at hsel
    obtain ⟨fila, hfila⟩ := Option.isSome_iff_exists.mp hsel
    simp only [pipeline, hrod, hfila, hfetch]

/-- Witness for C10 on a concrete one-row table with a matching selection. -/
theorem C10_empty_coords_halts_witness :
    (rutas_od [rowE1] "A" "B" ≠ [] ∧
      (selectFila (rutas_od [rowE1] "A" "B") "R1").isSome = true) ∧
    obtener_ruta_osrm ⟨200, some (mkOSRMBody [] 600 [])⟩ = .ok ⟨[], some (600 / 60)⟩ ∧
    pipeline [rowE1] "A" "B" "R1" ⟨200, some (mkOSRMBody [] 600 [])⟩
      = .ok (.halted "Error al obtener ruta desde OSRM.") :=
  ⟨⟨by simp [rutas_od, rowE1, sampleRow], by simp [rutas_od, selectFila, rowE1, sampleRow]⟩,
    C10_empty_coords_halts [rowE1] "A" "B" "R1" 600
      (by simp [rutas_od, rowE1, sampleRow])
      (by simp [rutas_od, selectFila, rowE1, sampleRow])⟩

/-- Casting `⌊h⌋.toNat` to `ℚ` gives `⌊h⌋` when `h` is nonnegative. -/
lemma cast_toNat_floor (h : ℚ) (h0 : 0 ≤ h) :
    ((Int.toNat ⌊h⌋ : ℕ) : ℚ) = ((⌊h⌋ : ℤ) : ℚ) := by
  have h1 : ((Int.toNat ⌊h⌋ : ℕ) : ℤ) = ⌊h⌋ :=
    Int.toNat_of_nonneg (Int.floor_nonneg.mpr h0)
  exact_mod_cast congrArg (fun z : ℤ => (z : ℚ)) h1

/-- On a sorted list, the entry after position `i` (read as the entry at `i`
past the end) is at least the entry at `i`. -/
lemma getD_succ_ge (s : List ℚ) (hs : s.Sorted (fun a b => a ≤ b))
    {i : Nat} (hi : i < s.length) :
    s.getD i 0 ≤ s.getD (i + 1) (s.getD i 0) := by
  by_cases h2 : i + 1 < s.length
  · rw [List.getD_eq_get s _ hi, List.getD_eq_get s _ h2]
    exact hs.rel_get_of_le (Fin.mk_le_mk.mpr (Nat.le_succ i))
  · rw [List.getD_eq_default _ _ (Nat.le_of_not_lt h2)]

/-- The interpolated value at fractional position `h` is at most the upper
of the two interpolation endpoints. -/
lemma qinterp_upper (s : List ℚ) (hs : s.Sorted (fun a b => a ≤ b)) (h : ℚ) (h0 : 0 ≤ h)
    (hin : Int.toNat ⌊h⌋ < s.length) :
    qinterp s h ≤ s.getD (Int.toNat ⌊h⌋ + 1) (s.getD (Int.toNat ⌊h⌋) 0) := by
  unfold qinterp
  have hle := getD_succ_ge s hs hin
  have hg1 : h - ((Int.toNat ⌊h⌋ : ℕ) : ℚ) ≤ 1 := by
    have hlt := Int.lt_floor_add_one h
    rw [cast_toNat_floor h h0]
    linarith
  have hmul := mul_le_mul_of_nonneg_right hg1 (sub_nonneg.mpr hle)
  linarith

/-- The interpolated value at fractional position `h` is at least the lower
of the two interpolation endpoints. -/
lemma qinterp_lower (s : List ℚ) (hs : s.Sorted (fun a b => a ≤ b)) (h : ℚ) (h0 : 0 ≤ h)
    (hin : Int.toNat ⌊h⌋ < s.length) :
    s.getD (Int.toNat ⌊h⌋) 0 ≤ qinterp s h := by
  unfold qinterp
  have hle := getD_succ_ge s hs hin
  have hg0 : 0 ≤ h - ((Int.toNat ⌊h⌋ : ℕ) : ℚ) := by
    rw [cast_toNat_floor h h0]
    have := Int.floor_le h
    linarith
  have hmul := mul_nonneg hg0 (sub_nonneg.mpr hle)
  linarith

/-- Monotonicity of linear interpolation into a sorted list, on the index
range actually used by `quantile`. -/
lemma qinterp_mono (s : List ℚ) (hs : s.Sorted (fun a b => a ≤ b))
    (h h' : ℚ) (h0 : 0 ≤ h) (hhh : h ≤ h') (hub : h' ≤ (s.length : ℚ) - 1) :
    qinterp s h ≤ qinterp s h' := by
  have h0' : 0 ≤ h' := le_trans h0 hhh
  have hi'cast : ((Int.toNat ⌊h'⌋ : ℕ) : ℚ) ≤ (s.length : ℚ) - 1 := by
    rw [cast_toNat_floor h' h0']
    exact le_trans (Int.floor_le h') hub
  have hi'n : Int.toNat ⌊h'⌋ < s.length := by
    have hb : ((Int.toNat ⌊h'⌋ : ℕ) : ℚ) < (s.length : ℚ) := by linarith
    exact_mod_cast hb
  have hii' : Int.toNat ⌊h⌋ ≤ Int.toNat ⌊h'⌋ := Int.toNat_le_toNat (Int.floor_mono hhh)
  have hin : Int.toNat ⌊h⌋ < s.length := Nat.lt_of_le_of_lt hii' hi'n
  rcases eq_or_lt_of_le hii' with heq | hlt
  · unfold qinterp
    rw [← heq]
    have hle := getD_succ_ge s hs hin
    have hmul := mul_le_mul_of_nonneg_right (sub_le_sub_right hhh ((Int.toNat ⌊h⌋ : ℕ) : ℚ))
      (sub_nonneg.mpr hle)
    linarith
  · have hstep : Int.toNat ⌊h⌋ + 1 ≤ Int.toNat ⌊h'⌋ := hlt
    have hi1n : Int.toNat ⌊h⌋ + 1 < s.length := Nat.lt_of_le_of_lt hstep hi'n
    calc qinterp s h
        ≤ s.getD (Int.toNat ⌊h⌋ + 1) (s.getD (Int.toNat ⌊h⌋) 0) :=
          qinterp_upper s hs h h0 hin
      _ ≤ s.getD (Int.toNat ⌊h'⌋) 0 := by
          rw [List.getD_eq_get s _ hi1n, List.getD_eq_get s _ hi'n]
          exact hs.rel_get_of_le (Fin.mk_le_mk.mpr hstep)
      _ ≤ qinterp s h' := qinterp_lower s hs h' h0' hi'n

/-- `quantile` is monotone in the requested quantile level on `[0, 1]`. -/
lemma quantile_mono (xs : List ℚ) (q q' : ℚ) (h0 : 0 ≤ q) (hqq : q ≤ q') (h1 : q' ≤ 1) :
    quantile xs q ≤ quantile xs q' := by
  unfold quantile
  have hsorted : (List.insertionSort (fun a b => a ≤ b) xs).Sorted (fun a b => a ≤ b) :=
    List.sorted_insertionSort _ xs
  by_cases hlen : (List.insertionSort (fun a b => a ≤ b) xs).length = 0
  · simp [hlen]
  · rw [if_neg hlen, if_neg hlen]
    have hn1 : (1 : ℚ) ≤ ((List.insertionSort (fun a b => a ≤ b) xs).length : ℚ) := by
      exact_mod_cast Nat.one_le_iff_ne_zero.mpr hlen
    have hsub : (0 : ℚ) ≤ ((List.insertionSort (fun a b => a ≤ b) xs).length : ℚ) - 1 := by
      linarith
    refine qinterp_mono _ hsorted _ _ (mul_nonneg h0 hsub)
      (mul_le_mul_of_nonneg_right hqq hsub) ?_
    calc q' * (((List.insertionSort (fun a b => a ≤ b) xs).length : ℚ) - 1)
        ≤ 1 * (((List.insertionSort (fun a b => a ≤ b) xs).length : ℚ) - 1) :=
          mul_le_mul_of_nonneg_right h1 hsub
      _ = ((List.insertionSort (fun a b => a ≤ b) xs).length : ℚ) - 1 := one_mul _

/-- C5: on a non-empty table (where the pandas quantiles are actual numbers),
`eficiencia_color` returns the high-efficiency color iff the value is
strictly above the 0.66 quantile of the full table's `eficiencia` column,
the low-efficiency color iff it is at or below the 0.33 quantile, and the
medium color otherwise. -/
theorem C5_eficiencia_color (df : List RowE) (v : ℚ) (hdf : df ≠ []) :
    (eficiencia_color df v = .green
       ↔ quantile (df.map (fun r => r.eficiencia)) (66 / 100) < v) ∧
    (eficiencia_color df v = .red
       ↔ v ≤ quantile (df.map (fun r => r.eficiencia)) (33 / 100)) ∧
    (eficiencia_color df v = .orange
       ↔ (quantile (df.map (fun r => r.eficiencia)) (33 / 100) < v ∧
          v ≤ quantile (df.map (fun r => r.eficiencia)) (66 / 100))) := by
  have hq : quantile (df.map (fun r => r.eficiencia)) (33 / 100)
      ≤ quantile (df.map (fun r => r.eficiencia)) (66 / 100) :=
    quantile_mono _ _ _ (by norm_num) (by norm_num) (by norm_num)
  unfold eficiencia_color
  split_ifs with h1 h2
  · have hv : ¬ v ≤ quantile (df.map (fun r => r.eficiencia)) (33 / 100) :=
      not_le.mpr (lt_of_le_of_lt hq h1)
    refine ⟨by simp [h1], by simp [hv], by simp [not_le.mpr h1]⟩
  · refine ⟨by simp [h1], by simp [not_le.mpr h2], by simp [h2, not_lt.mp h1]⟩
  · refine ⟨by simp [h1], by simp [not_lt.mp h2], by simp [h2]⟩

/-- Witness for C5 on a concrete one-row table (its quantiles are both 2). -/
theorem C5_eficiencia_color_witness :
    ([rowE1] : List RowE) ≠ [] ∧
    (eficiencia_color [rowE1] 3 = .green
       ↔ quantile (([rowE1] : List RowE).map (fun r => r.eficiencia)) (66 / 100) < 3) :=
  ⟨by simp, (C5_eficiencia_color [rowE1] 3 (by simp)).1⟩

end MovilidadCR
